import Mathlib

/-!
Verification development for `mobile_agent.py` (racing-agent repository).

The script is a single Streamlit page: it collects form inputs (meeting,
date, time, bet mode, API key), and on submit — guarded by
`if start_btn and api_key and meeting:` — configures the external client,
invokes `model.generate_content(...)` inside a `try`, parses the response
with `json.loads`, and renders the parsed fields (alert banner, conditions
caption, two metric cards, logic panel).  Any exception inside the `try`
falls into `except Exception as e`, which renders a single error banner
`f"Oops: {e}"`.

Shallow embedding choices:
* Python/JSON values are `JsonValue`; `json.loads` is external library
  code (not in the repository), so it enters the model as a parameter
  `loads : String -> Except String JsonValue` giving, for each response
  text, either the decoded value or a `JSONDecodeError` message.
* The outcome of the network call `model.generate_content` is the
  parameter `remote : Except String String` — either the response text or
  the message of the exception it raised.
* Every observable side effect (each `st.*` widget call, the status
  updates, `genai.configure`, the `generate_content` invocation) is an
  `Event`; a run of the script produces the list of events in program
  order.  Widgets render immediately, so events emitted before an
  exception stay in the trace.
* Python `datetime` values only flow into f-strings, so `race_time` and
  `race_date` are carried as their `str(...)` rendering.
* A parsed JSON object is an association list without duplicate keys (the
  final state of the Python dict built by `json.loads`).
-/

namespace RacingAgent

/-- Python values that can result from `json.loads` (and hence flow through
the display code): `None`, booleans, numbers (integral, the only kind the
claims exercise), strings, lists, dicts. -/
inductive JsonValue where
  | null
  | bool (b : Bool)
  | num (n : Int)
  | str (s : String)
  | arr (elems : List JsonValue)
  | obj (fields : List (String × JsonValue))

/-- Association-list lookup, the model of Python dict lookup (objects are
stored without duplicate keys, so first match = the dict entry). -/
def lookupField : List (String × JsonValue) → String → Option JsonValue
  | [], _ => none
  | (k, v) :: rest, key => if k == key then some v else lookupField rest key

/-- Python `type(v).__name__`, used in `AttributeError` messages. -/
def pyTypeName : JsonValue → String
  | .null => "NoneType"
  | .bool _ => "bool"
  | .num _ => "int"
  | .str _ => "str"
  | .arr _ => "list"
  | .obj _ => "dict"

/-- Python truthiness (`bool(v)`) of a JSON-decoded value. -/
def JsonValue.truthy : JsonValue → Bool
  | .null => false
  | .bool b => b
  | .num n => !(n == 0)
  | .str s => !(s == "")
  | .arr elems => !elems.isEmpty
  | .obj fields => !fields.isEmpty

/-- Truthiness of a `dict.get` result: Python `None` (absent key, or a
stored JSON null, both arriving as `None`) is falsy. -/
def pyTruthyOpt : Option JsonValue → Bool
  | none => false
  | some v => v.truthy

mutual
/-- Python `repr(v)` for JSON-decoded values (string escaping elided: the
claims only exercise plain text). -/
def pyRepr : JsonValue → String
  | .null => "None"
  | .bool true => "True"
  | .bool false => "False"
  | .num n => toString n
  | .str s => "\x27" ++ s ++ "\x27"
  | .arr elems => "[" ++ pyReprList elems ++ "]"
  | .obj fields => "\x7b" ++ pyReprFields fields ++ "\x7d"

/-- `repr` of list elements, comma-separated. -/
def pyReprList : List JsonValue → String
  | [] => ""
  | [v] => pyRepr v
  | v :: rest => pyRepr v ++ ", " ++ pyReprList rest

/-- `repr` of dict entries, comma-separated. -/
def pyReprFields : List (String × JsonValue) → String
  | [] => ""
  | [(k, v)] => "\x27" ++ k ++ "\x27: " ++ pyRepr v
  | (k, v) :: rest => "\x27" ++ k ++ "\x27: " ++ pyRepr v ++ ", " ++ pyReprFields rest
end

/-- Python `str(v)`: identity on strings, `repr` otherwise — the semantics
of f-string interpolation `f"... \x7bv\x7d ..."`. -/
def pyStr : JsonValue → String
  | .str s => s
  | v => pyRepr v

/-- Python `v == s` for a string literal `s`: equality across types is
`False`, so only a string value can compare equal. -/
def pyEqStr (v : JsonValue) (s : String) : Bool :=
  match v with
  | .str t => t == s
  | _ => false

/-- Exceptions the `try` block of `mobile_agent.py` can see. -/
inductive PyErr where
  | attributeError (typeName : String) (attr : String)
  | keyError (key : String)
  | typeError (typeName : String)
  | jsonDecodeError (msg : String)
  | remoteError (msg : String)

/-- Python `str(e)`, the text interpolated into `f"Oops: \x7be\x7d"`. -/
def PyErr.message : PyErr → String
  | .attributeError typeName attr =>
      "\x27" ++ typeName ++ "\x27 object has no attribute \x27" ++ attr ++ "\x27"
  | .keyError key => "\x27" ++ key ++ "\x27"
  | .typeError typeName => "\x27" ++ typeName ++ "\x27 object is not subscriptable"
  | .jsonDecodeError msg => msg
  | .remoteError msg => msg

/-- Python `data.get(key)` (line 104): `AttributeError` on a non-dict,
otherwise the stored value or `None`. -/
def pyGet (v : JsonValue) (key : String) : Except PyErr (Option JsonValue) :=
  match v with
  | .obj fields => .ok (lookupField fields key)
  | other => .error (.attributeError (pyTypeName other) "get")

/-- Python `data[key]`: `KeyError` when absent, `TypeError` on a non-dict. -/
def pyIndex (v : JsonValue) (key : String) : Except PyErr JsonValue :=
  match v with
  | .obj fields =>
      match lookupField fields key with
      | some x => .ok x
      | none => .error (.keyError key)
  | other => .error (.typeError (pyTypeName other))

/-- Observable effects of one script run, in program order.  `stError`
covers both uses of `st.error` (the jockey-alert banner of line 105 and
the `Oops:` handler of line 134), distinguished by their message. -/
inductive Event where
  | configure (api_key : String)
  | statusWrite (msg : String)
  | generateContent (userPrompt : String)
  | statusComplete
  | statusError
  | stError (msg : String)
  | stWarning (msg : String)
  | stCaption (text : String)
  | stMetric (label : String) (value : JsonValue) (delta : JsonValue)
  | stDivider
  | stSubheader (text : String)
  | stInfo (value : JsonValue)

/-- Lines 104-105: `if data.get("jockey_alert") and data["jockey_alert"] !=
"null": st.error(f"🚨 **JOCKEY ALERT:** \x7bdata['jockey_alert']\x7d")`.
An error aborts the step with no event (widgets only fire after their
arguments evaluate). -/
def alertStep (data : JsonValue) : Except PyErr (List Event) :=
  match pyGet data "jockey_alert" with
  | .error e => .error e
  | .ok g =>
      if pyTruthyOpt g then
        match pyIndex data "jockey_alert" with
        | .error e => .error e
        | .ok v =>
            if !(pyEqStr v "null") then
              .ok [.stError ("🚨 **JOCKEY ALERT:** " ++ pyStr v)]
            else
              .ok []
      else
        .ok []

/-- Line 108: `st.caption(f"📍 \x7bmeeting\x7d • \x7bdata['conditions']\x7d")`. -/
def captionStep (meeting : String) (data : JsonValue) : Except PyErr (List Event) :=
  match pyIndex data "conditions" with
  | .error e => .error e
  | .ok conditions => .ok [.stCaption ("📍 " ++ meeting ++ " • " ++ pyStr conditions)]

/-- Lines 114-118: the selection metric card (value then delta evaluate
before the widget renders). -/
def selectionStep (data : JsonValue) : Except PyErr (List Event) :=
  match pyIndex data "selection" with
  | .error e => .error e
  | .ok selection =>
      match pyIndex data "selection_odds" with
      | .error e => .error e
      | .ok odds => .ok [.stMetric "🏆 THE SELECTION" selection odds]

/-- Lines 120-125: the danger metric card. -/
def dangerStep (data : JsonValue) : Except PyErr (List Event) :=
  match pyIndex data "danger" with
  | .error e => .error e
  | .ok danger =>
      match pyIndex data "danger_odds" with
      | .error e => .error e
      | .ok odds => .ok [.stMetric "⚠️ THE DANGER" danger odds]

/-- Lines 128-129: `st.divider()` and `st.subheader("📝 The Logic")` render
unconditionally before `data['logic']` is touched. -/
def logicHeaderStep : Except PyErr (List Event) :=
  .ok [.stDivider, .stSubheader "📝 The Logic"]

/-- Line 130: `st.info(data['logic'])`. -/
def logicStep (data : JsonValue) : Except PyErr (List Event) :=
  match pyIndex data "logic" with
  | .error e => .error e
  | .ok logic => .ok [.stInfo logic]

/-- The display statements of lines 104-130, in program order. -/
def displaySteps (meeting : String) (data : JsonValue) : List (Except PyErr (List Event)) :=
  [alertStep data, captionStep meeting data, selectionStep data,
   dangerStep data, logicHeaderStep, logicStep data]

/-- Sequential execution of statements: events accumulate until the first
exception, which carries no event of its own and stops the block. -/
def runSteps : List (Except PyErr (List Event)) → List Event × Option PyErr
  | [] => ([], none)
  | step :: rest =>
      match step with
      | .error e => ([], some e)
      | .ok evs =>
          let r := runSteps rest
          (evs ++ r.1, r.2)

/-- The submitted form: `start_btn` from `st.button`, `api_key` from the
sidebar (empty string when absent — `st.text_input` defaults to `""`),
`meeting` free text, and the `str(...)` renderings of time, date, mode. -/
structure FormInput where
  start_btn : Bool
  api_key : String
  meeting : String
  race_time : String
  race_date : String
  bet_type : String

/-- Line 93: the user prompt
`f"Analyze the \x7brace_time\x7d race at \x7bmeeting\x7d (\x7brace_date\x7d) for a \x7bbet_type\x7d bet."`. -/
def userPrompt (inp : FormInput) : String :=
  "Analyze the " ++ inp.race_time ++ " race at " ++ inp.meeting ++ " (" ++
    inp.race_date ++ ") for a " ++ inp.bet_type ++ " bet."

/-- Effects preceding the `try`: `genai.configure(api_key=...)` (line 55)
and `status.write(...)` (line 88).  Model construction (lines 59-86) is
local object setup with no observable effect. -/
def preEvents (inp : FormInput) : List Event :=
  [.configure inp.api_key, .statusWrite "🔍 Finding racecard & checking going..."]

/-- The `try` block, lines 90-130: invoke `generate_content` (outcome
`remote`), run `json.loads` (the `loads` parameter) on the response text,
then `status.update(state="complete")` and the display statements.  Result:
events emitted, and the exception that escaped to `except`, if any. -/
def tryBlock (inp : FormInput) (remote : Except String String)
    (loads : String → Except String JsonValue) : List Event × Option PyErr :=
  match remote with
  | .error m => ([.generateContent (userPrompt inp)], some (.remoteError m))
  | .ok text =>
      match loads text with
      | .error m => ([.generateContent (userPrompt inp)], some (.jsonDecodeError m))
      | .ok data =>
          let r := runSteps (displaySteps inp.meeting data)
          ([.generateContent (userPrompt inp), .statusComplete] ++ r.1, r.2)

/-- One run of the script's agent logic (lines 54-137): the guarded submit
branch with its `try`/`except` (the handler renders
`status.update(state="error")` then `st.error(f"Oops: \x7be\x7d")`), the
missing-key branch (`elif start_btn and not api_key`), or nothing. -/
def appRun (inp : FormInput) (remote : Except String String)
    (loads : String → Except String JsonValue) : List Event :=
  if inp.start_btn && !(inp.api_key == "") && !(inp.meeting == "") then
    let r := tryBlock inp remote loads
    match r.2 with
    | none => preEvents inp ++ r.1
    | some e => preEvents inp ++ r.1 ++ [.statusError, .stError ("Oops: " ++ e.message)]
  else if inp.start_btn && (inp.api_key == "") then
    [.stWarning "Please enter your API Key."]
  else
    []

/-- The banner decision of lines 104-105 as a plain function of the dict:
the value stored under `jockey_alert` yields the banner exactly when it is
truthy and not the string `"null"`. -/
def alertEvents (fields : List (String × JsonValue)) : List Event :=
  match lookupField fields "jockey_alert" with
  | some v =>
      if v.truthy && !(pyEqStr v "null") then
        [.stError ("🚨 **JOCKEY ALERT:** " ++ pyStr v)]
      else
        []
  | none => []

/-! Helper lemmas characterizing the display steps and the run shapes. -/

/-- On a dict, the banner statement never raises and emits exactly
`alertEvents`. -/
theorem alertStep_obj (fields : List (String × JsonValue)) :
    alertStep (.obj fields) = .ok (alertEvents fields) := by
  simp only [alertStep, alertEvents, pyGet, pyIndex]
  cases h : lookupField fields "jockey_alert" with
  | none => simp [pyTruthyOpt]
  | some v =>
      simp only [pyTruthyOpt]
      cases hv : v.truthy with
      | false => simp [hv]
      | true =>
          cases hpe : pyEqStr v "null" with
          | false => simp [hv, hpe]
          | true => simp [hv, hpe]

/-- When the jockey-alert value is a non-empty string other than "null",
the banner fires with exactly that text. -/
theorem alertEvents_str (fields : List (String × JsonValue)) (a : String)
    (h : lookupField fields "jockey_alert" = some (.str a))
    (hne : a ≠ "") (hnn : a ≠ "null") :
    alertEvents fields = [.stError ("🚨 **JOCKEY ALERT:** " ++ a)] := by
  simp [alertEvents, h, JsonValue.truthy, pyEqStr, pyStr, hne, hnn]

/-- The caption statement with the `conditions` value in hand. -/
theorem captionStep_eq (meeting : String) (fields : List (String × JsonValue))
    (c : JsonValue) (h : lookupField fields "conditions" = some c) :
    captionStep meeting (.obj fields) =
      .ok [.stCaption ("📍 " ++ meeting ++ " • " ++ pyStr c)] := by
  simp [captionStep, pyIndex, h]

/-- The selection card with both values in hand. -/
theorem selectionStep_eq (fields : List (String × JsonValue)) (s odds : JsonValue)
    (hs : lookupField fields "selection" = some s)
    (ho : lookupField fields "selection_odds" = some odds) :
    selectionStep (.obj fields) = .ok [.stMetric "🏆 THE SELECTION" s odds] := by
  simp [selectionStep, pyIndex, hs, ho]

/-- The danger card with both values in hand. -/
theorem dangerStep_eq (fields : List (String × JsonValue)) (d odds : JsonValue)
    (hd : lookupField fields "danger" = some d)
    (ho : lookupField fields "danger_odds" = some odds) :
    dangerStep (.obj fields) = .ok [.stMetric "⚠️ THE DANGER" d odds] := by
  simp [dangerStep, pyIndex, hd, ho]

/-- The logic panel with the `logic` value in hand. -/
theorem logicStep_eq (fields : List (String × JsonValue)) (l : JsonValue)
    (h : lookupField fields "logic" = some l) :
    logicStep (.obj fields) = .ok [.stInfo l] := by
  simp [logicStep, pyIndex, h]

/-- A statement sequence that finishes without an exception had every
statement succeed. -/
theorem runSteps_ok_all (l : List (Except PyErr (List Event)))
    (h : (runSteps l).2 = none) : ∀ s ∈ l, ∃ evs, s = .ok evs := by
  induction l with
  | nil => intro s hs; simp at hs
  | cons head rest ih =>
      intro s hs
      cases hh : head with
      | error e => rw [hh] at h; simp [runSteps] at h
      | ok evs =>
          rw [hh] at h
          simp only [runSteps] at h
          rcases List.mem_cons.mp hs with hs | hs
          · exact ⟨evs, by rw [hs, hh]⟩
          · exact ih h s hs


/-- A caption that rendered had the `conditions` key present. -/
theorem captionStep_key (meeting : String) (fields : List (String × JsonValue))
    (evs : List Event) (h : captionStep meeting (.obj fields) = .ok evs) :
    (lookupField fields "conditions").isSome := by
  cases hc : lookupField fields "conditions" with
  | some c => simp
  | none => simp [captionStep, pyIndex, hc] at h

/-- A selection card that rendered had both of its keys present. -/
theorem selectionStep_keys (fields : List (String × JsonValue))
    (evs : List Event) (h : selectionStep (.obj fields) = .ok evs) :
    (lookupField fields "selection").isSome ∧
      (lookupField fields "selection_odds").isSome := by
  cases hs : lookupField fields "selection" with
  | none => simp [selectionStep, pyIndex, hs] at h
  | some s =>
      cases ho : lookupField fields "selection_odds" with
      | none => simp [selectionStep, pyIndex, hs, ho] at h
      | some odds => simp

/-- A danger card that rendered had both of its keys present. -/
theorem dangerStep_keys (fields : List (String × JsonValue))
    (evs : List Event) (h : dangerStep (.obj fields) = .ok evs) :
    (lookupField fields "danger").isSome ∧
      (lookupField fields "danger_odds").isSome := by
  cases hd : lookupField fields "danger" with
  | none => simp [dangerStep, pyIndex, hd] at h
  | some d =>
      cases ho : lookupField fields "danger_odds" with
      | none => simp [dangerStep, pyIndex, hd, ho] at h
      | some odds => simp

/-- A logic panel that rendered had the `logic` key present. -/
theorem logicStep_key (fields : List (String × JsonValue))
    (evs : List Event) (h : logicStep (.obj fields) = .ok evs) :
    (lookupField fields "logic").isSome := by
  cases hl : lookupField fields "logic" with
  | some l => simp
  | none => simp [logicStep, pyIndex, hl] at h

/-- A display block that finished without an exception had every required
key present in the parsed object. -/
theorem displaySteps_keys (meeting : String) (fields : List (String × JsonValue))
    (h : (runSteps (displaySteps meeting (.obj fields))).2 = none) :
    (lookupField fields "conditions").isSome ∧
    (lookupField fields "selection").isSome ∧
    (lookupField fields "selection_odds").isSome ∧
    (lookupField fields "danger").isSome ∧
    (lookupField fields "danger_odds").isSome ∧
    (lookupField fields "logic").isSome := by
  have hall := runSteps_ok_all _ h
  obtain ⟨evc, hc⟩ := hall (captionStep meeting (.obj fields)) (by simp [displaySteps])
  obtain ⟨evs, hs⟩ := hall (selectionStep (.obj fields)) (by simp [displaySteps])
  obtain ⟨evd, hd⟩ := hall (dangerStep (.obj fields)) (by simp [displaySteps])
  obtain ⟨evl, hl⟩ := hall (logicStep (.obj fields)) (by simp [displaySteps])
  exact ⟨captionStep_key meeting fields evc hc,
    (selectionStep_keys fields evs hs).1, (selectionStep_keys fields evs hs).2,
    (dangerStep_keys fields evd hd).1, (dangerStep_keys fields evd hd).2,
    logicStep_key fields evl hl⟩

/-- Shape of a submitted run whose `try` block escaped with exception `e`:
the events emitted so far, then `status.update(state="error")` and the
`Oops` banner. -/
theorem appRun_error_shape (inp : FormInput) (remote : Except String String)
    (loads : String → Except String JsonValue) (e : PyErr)
    (hb : inp.start_btn = true) (hk : inp.api_key ≠ "") (hm : inp.meeting ≠ "")
    (h : (tryBlock inp remote loads).2 = some e) :
    appRun inp remote loads =
      preEvents inp ++ (tryBlock inp remote loads).1 ++
        [.statusError, .stError ("Oops: " ++ e.message)] := by
  simp [appRun, hb, hk, hm, h]

/-- Shape of a submitted run whose `try` block completed. -/
theorem appRun_ok_shape (inp : FormInput) (remote : Except String String)
    (loads : String → Except String JsonValue)
    (hb : inp.start_btn = true) (hk : inp.api_key ≠ "") (hm : inp.meeting ≠ "")
    (h : (tryBlock inp remote loads).2 = none) :
    appRun inp remote loads = preEvents inp ++ (tryBlock inp remote loads).1 := by
  simp [appRun, hb, hk, hm, h]

/-- The end-to-end scenario form: meeting "Newbury", time 15:35 (rendered
"15:35:00" by `str`), date 2024-06-01, mode "Win", a non-empty key. -/
def sample1Input : FormInput :=
  { start_btn := true, api_key := "secret-key", meeting := "Newbury",
    race_time := "15:35:00", race_date := "2024-06-01", bet_type := "Win" }

/-- The scenario response text, verbatim. -/
def sample1Text : String :=
  "\x7b\"conditions\":\"Soft, 2m4f\",\"selection\":\"Storm King\",\"selection_odds\":\"4/1\",\"danger\":\"Bay Breeze\",\"danger_odds\":\"7/2\",\"jockey_alert\":null,\"logic\":\"Soft ground favors stamina.\"\x7d"

/-- The decoding of `sample1Text`. -/
def sample1Data : JsonValue :=
  .obj [("conditions", .str "Soft, 2m4f"), ("selection", .str "Storm King"),
        ("selection_odds", .str "4/1"), ("danger", .str "Bay Breeze"),
        ("danger_odds", .str "7/2"), ("jockey_alert", .null),
        ("logic", .str "Soft ground favors stamina.")]

/-- A `json.loads` that decodes exactly `sample1Text` and rejects anything
else with the standard decode-error message. -/
def sample1Loads : String → Except String JsonValue := fun t =>
  if t == sample1Text then .ok sample1Data
  else .error "Expecting value: line 1 column 1 (char 0)"

/-- C8: on meeting "Newbury", time 15:35, date 2024-06-01, mode "Win", with
the scenario response decoding to the given object (`jockey_alert` null),
the run shows no alert banner; the conditions caption carries
"Newbury • Soft, 2m4f" (after the code's fixed "📍 " decoration); the
selection card is "Storm King" with delta "4/1"; the danger card is
"Bay Breeze" with delta "7/2"; the logic panel carries the logic text
verbatim. -/
theorem c8_scenario1_end_to_end :
    appRun sample1Input (.ok sample1Text) sample1Loads =
      [.configure "secret-key",
       .statusWrite "🔍 Finding racecard & checking going...",
       .generateContent "Analyze the 15:35:00 race at Newbury (2024-06-01) for a Win bet.",
       .statusComplete,
       .stCaption ("📍 " ++ "Newbury • Soft, 2m4f"),
       .stMetric "🏆 THE SELECTION" (.str "Storm King") (.str "4/1"),
       .stMetric "⚠️ THE DANGER" (.str "Bay Breeze") (.str "7/2"),
       .stDivider,
       .stSubheader "📝 The Logic",
       .stInfo (.str "Soft ground favors stamina.")] := by
  set_option maxRecDepth 8000 in rfl

/-- C2 counterexample: the claim says any string value other than "null"
(absent/null aside) yields "alert present" carrying that string; but for
the empty string the code's truthiness test skips the banner, so the run
emits no alert event at all. -/
theorem c2_counterexample :
    alertStep (.obj [("jockey_alert", JsonValue.str "")]) = .ok [] ∧
    alertStep (.obj [("jockey_alert", JsonValue.str "")]) ≠
      .ok [.stError ("🚨 **JOCKEY ALERT:** " ++ "")] := by
  refine ⟨rfl, ?_⟩
  intro h
  rw [show alertStep (.obj [("jockey_alert", JsonValue.str "")]) =
    (.ok [] : Except PyErr (List Event)) from rfl] at h
  simp at h

/-- C2 (amended): the jockey-alert normalization is total on the parsed
object: absent key, null, the string "null", and also the empty string
yield "no alert"; every other (hence non-empty, non-"null") string value
yields the banner carrying exactly that string. -/
theorem c2_alert_normalization (fields : List (String × JsonValue)) :
    (lookupField fields "jockey_alert" = none → alertStep (.obj fields) = .ok []) ∧
    (lookupField fields "jockey_alert" = some .null → alertStep (.obj fields) = .ok []) ∧
    (lookupField fields "jockey_alert" = some (.str "null") →
      alertStep (.obj fields) = .ok []) ∧
    (lookupField fields "jockey_alert" = some (.str "") →
      alertStep (.obj fields) = .ok []) ∧
    (∀ s : String, s ≠ "" → s ≠ "null" →
      lookupField fields "jockey_alert" = some (.str s) →
      alertStep (.obj fields) = .ok [.stError ("🚨 **JOCKEY ALERT:** " ++ s)]) := by
  refine ⟨fun h => ?_, fun h => ?_, fun h => ?_, fun h => ?_,
    fun s hne hnn h => ?_⟩ <;> rw [alertStep_obj]
  · simp [alertEvents, h]
  · simp [alertEvents, h, JsonValue.truthy]
  · simp [alertEvents, h, JsonValue.truthy, pyEqStr]
  · simp [alertEvents, h, JsonValue.truthy]
  · rw [alertEvents_str fields s h hne hnn]

/-- C2 witness: a concrete non-empty alert string produces the banner with
exactly that text. -/
theorem c2_witness :
    alertStep (.obj [("jockey_alert", JsonValue.str "J. Smith booked")]) =
      .ok [.stError ("🚨 **JOCKEY ALERT:** " ++ "J. Smith booked")] :=
  (c2_alert_normalization [("jockey_alert", JsonValue.str "J. Smith booked")]).2.2.2.2
    "J. Smith booked" (by decide) (by decide) rfl

/-- C9: the banner guard uses Python truthiness, so every falsy
`jockey_alert` value — empty string, `false`, `0`, `null` among them — is
treated exactly like an absent key: no banner event. -/
theorem c9_truthiness_falsy_no_alert :
    (∀ (fields : List (String × JsonValue)) (v : JsonValue),
      lookupField fields "jockey_alert" = some v → v.truthy = false →
      alertStep (.obj fields) = .ok []) ∧
    (JsonValue.str "").truthy = false ∧
    (JsonValue.bool false).truthy = false ∧
    (JsonValue.num 0).truthy = false ∧
    JsonValue.null.truthy = false := by
  refine ⟨fun fields v h hv => ?_, by decide, by decide, by decide, by decide⟩
  rw [alertStep_obj]
  simp [alertEvents, h, hv]

/-- C9 witness: the banner decision at the concrete falsy value `false`. -/
theorem c9_witness :
    alertStep (.obj [("jockey_alert", JsonValue.bool false)]) = .ok [] :=
  c9_truthiness_falsy_no_alert.1 [("jockey_alert", JsonValue.bool false)]
    (JsonValue.bool false) rfl rfl

/-- C3: a submission without an API key renders only the warning — the
external generation service is never invoked, whatever the other inputs,
the network outcome, or the decoder. -/
theorem c3_missing_credential_blocks (inp : FormInput)
    (remote : Except String String) (loads : String → Except String JsonValue)
    (hb : inp.start_btn = true) (hk : inp.api_key = "") :
    appRun inp remote loads = [.stWarning "Please enter your API Key."] ∧
    ∀ p, Event.generateContent p ∉ appRun inp remote loads := by
  have h1 : appRun inp remote loads = [.stWarning "Please enter your API Key."] := by
    simp [appRun, hb, hk]
  exact ⟨h1, fun p => by rw [h1]; simp⟩

/-- C3 witness: a concrete empty-credential submission. -/
theorem c3_witness :
    appRun { start_btn := true, api_key := "", meeting := "Newbury",
             race_time := "15:35:00", race_date := "2024-06-01", bet_type := "Win" }
        (.error "network down") (fun _ => .error "Expecting value") =
      [.stWarning "Please enter your API Key."] :=
  (c3_missing_credential_blocks _ _ _ rfl rfl).1

/-- C6: with an empty meeting name the generation call is never attempted,
whatever the credential and the other inputs. -/
theorem c6_missing_meeting_blocks (inp : FormInput)
    (remote : Except String String) (loads : String → Except String JsonValue)
    (hm : inp.meeting = "") :
    ∀ p, Event.generateContent p ∉ appRun inp remote loads := by
  intro p
  have hc : (inp.start_btn && !(inp.api_key == "") && !(inp.meeting == "")) = false := by
    simp [hm]
  simp only [appRun, hc]
  split <;> simp_all

/-- C6 witness: a concrete empty-meeting submission attempts no call. -/
theorem c6_witness :
    Event.generateContent "p" ∉
      appRun { start_btn := true, api_key := "k", meeting := "",
               race_time := "t", race_date := "d", bet_type := "Win" }
        (.error "x") (fun _ => .error "y") :=
  c6_missing_meeting_blocks _ _ _ rfl "p"

/-- C5: every exception of the network call (the `remote` outcome) and of
JSON decoding (the `loads` outcome) is caught at the `try`/`except`
boundary: the run always ends in the single `Oops` error banner carrying
the underlying message, never in an unhandled crash (the run function is
total and returns the error trace). -/
theorem c5_exceptions_caught (inp : FormInput) (remote : Except String String)
    (loads : String → Except String JsonValue)
    (hb : inp.start_btn = true) (hk : inp.api_key ≠ "") (hm : inp.meeting ≠ "") :
    (∀ m, remote = .error m →
      appRun inp remote loads =
        preEvents inp ++ [.generateContent (userPrompt inp),
          .statusError, .stError ("Oops: " ++ m)]) ∧
    (∀ text m, remote = .ok text → loads text = .error m →
      appRun inp remote loads =
        preEvents inp ++ [.generateContent (userPrompt inp),
          .statusError, .stError ("Oops: " ++ m)]) := by
  constructor
  · intro m hr
    subst hr
    simp [appRun, tryBlock, hb, hk, hm, PyErr.message]
  · intro text m hr hl
    subst hr
    simp [appRun, tryBlock, hb, hk, hm, hl, PyErr.message]

/-- C5 witness: a concrete network failure surfaces as the single `Oops`
banner. -/
theorem c5_witness :
    appRun sample1Input (.error "503 Service Unavailable") sample1Loads =
      preEvents sample1Input ++ [.generateContent (userPrompt sample1Input),
        .statusError, .stError ("Oops: " ++ "503 Service Unavailable")] :=
  (c5_exceptions_caught sample1Input _ sample1Loads rfl (by decide) (by decide)).1
    "503 Service Unavailable" rfl

/-- C10: a response decoding to a non-object (list, string, number,
boolean, null) makes the very first access `data.get("jockey_alert")`
raise `AttributeError`, so the run takes the error path — one error
banner, no success output, no crash. -/
theorem c10_non_object_top_level (inp : FormInput) (text : String)
    (loads : String → Except String JsonValue) (data : JsonValue)
    (hb : inp.start_btn = true) (hk : inp.api_key ≠ "") (hm : inp.meeting ≠ "")
    (hl : loads text = .ok data) (hno : ∀ fields, data ≠ .obj fields) :
    appRun inp (.ok text) loads =
      preEvents inp ++ [.generateContent (userPrompt inp), .statusComplete,
        .statusError,
        .stError ("Oops: " ++
          ("\x27" ++ pyTypeName data ++ "\x27 object has no attribute \x27" ++ "get" ++ "\x27"))] := by
  have halert : alertStep data = .error (.attributeError (pyTypeName data) "get") := by
    cases data with
    | obj fields => exact absurd rfl (hno fields)
    | null => rfl
    | bool b => rfl
    | num n => rfl
    | str s => rfl
    | arr elems => rfl
  simp [appRun, tryBlock, hb, hk, hm, hl, displaySteps, runSteps, halert, PyErr.message]

/-- C10 witness: a top-level JSON list takes the error path with the
`AttributeError` message. -/
theorem c10_witness :
    appRun sample1Input (.ok "[1, 2]") (fun _ => .ok (.arr [.num 1, .num 2])) =
      preEvents sample1Input ++ [.generateContent (userPrompt sample1Input), .statusComplete,
        .statusError,
        .stError ("Oops: " ++
          ("\x27" ++ pyTypeName (.arr [.num 1, .num 2]) ++
            "\x27 object has no attribute \x27" ++ "get" ++ "\x27"))] :=
  c10_non_object_top_level sample1Input "[1, 2]" _ _ rfl (by decide) (by decide) rfl
    (fun fields h => JsonValue.noConfusion h)

/-- C4: on a response decoding to an object holding every required key,
the run renders the parsed values verbatim — the conditions string enters
the caption unchanged, the selection/odds/danger/odds/logic values reach
their widgets untouched — with the jockey-alert normalization (the
`alertEvents` prefix) the only other processing. -/
theorem c4_success_verbatim (inp : FormInput) (text : String)
    (loads : String → Except String JsonValue)
    (fields : List (String × JsonValue)) (c s so d dd l : String)
    (hb : inp.start_btn = true) (hk : inp.api_key ≠ "") (hm : inp.meeting ≠ "")
    (hl0 : loads text = .ok (.obj fields))
    (hc : lookupField fields "conditions" = some (.str c))
    (hs : lookupField fields "selection" = some (.str s))
    (hso : lookupField fields "selection_odds" = some (.str so))
    (hd : lookupField fields "danger" = some (.str d))
    (hdd : lookupField fields "danger_odds" = some (.str dd))
    (hlg : lookupField fields "logic" = some (.str l)) :
    appRun inp (.ok text) loads =
      preEvents inp ++ [.generateContent (userPrompt inp), .statusComplete] ++
      alertEvents fields ++
      [.stCaption ("📍 " ++ inp.meeting ++ " • " ++ c),
       .stMetric "🏆 THE SELECTION" (.str s) (.str so),
       .stMetric "⚠️ THE DANGER" (.str d) (.str dd),
       .stDivider, .stSubheader "📝 The Logic",
       .stInfo (.str l)] := by
  have hrun : runSteps (displaySteps inp.meeting (.obj fields)) =
      (alertEvents fields ++
        [.stCaption ("📍 " ++ inp.meeting ++ " • " ++ c),
         .stMetric "🏆 THE SELECTION" (.str s) (.str so),
         .stMetric "⚠️ THE DANGER" (.str d) (.str dd),
         .stDivider, .stSubheader "📝 The Logic",
         .stInfo (.str l)], none) := by
    simp [displaySteps, runSteps, alertStep_obj,
      captionStep_eq inp.meeting fields _ hc,
      selectionStep_eq fields _ _ hs hso, dangerStep_eq fields _ _ hd hdd,
      logicStep_eq fields _ hlg, logicHeaderStep, pyStr]
  simp [appRun, tryBlock, hb, hk, hm, hl0, hrun]

/-- C4 witness: the scenario-1 object, rendered verbatim (here
`alertEvents` of its fields is the empty prefix, since `jockey_alert` is
null). -/
theorem c4_witness :
    appRun sample1Input (.ok sample1Text) sample1Loads =
      preEvents sample1Input ++
      [.generateContent (userPrompt sample1Input), .statusComplete] ++
      alertEvents [("conditions", .str "Soft, 2m4f"), ("selection", .str "Storm King"),
        ("selection_odds", .str "4/1"), ("danger", .str "Bay Breeze"),
        ("danger_odds", .str "7/2"), ("jockey_alert", .null),
        ("logic", .str "Soft ground favors stamina.")] ++
      [.stCaption ("📍 " ++ sample1Input.meeting ++ " • " ++ "Soft, 2m4f"),
       .stMetric "🏆 THE SELECTION" (.str "Storm King") (.str "4/1"),
       .stMetric "⚠️ THE DANGER" (.str "Bay Breeze") (.str "7/2"),
       .stDivider, .stSubheader "📝 The Logic",
       .stInfo (.str "Soft ground favors stamina.")] :=
  c4_success_verbatim sample1Input sample1Text sample1Loads
    [("conditions", .str "Soft, 2m4f"), ("selection", .str "Storm King"),
     ("selection_odds", .str "4/1"), ("danger", .str "Bay Breeze"),
     ("danger_odds", .str "7/2"), ("jockey_alert", .null),
     ("logic", .str "Soft ground favors stamina.")]
    "Soft, 2m4f" "Storm King" "4/1" "Bay Breeze" "7/2" "Soft ground favors stamina."
    rfl (by decide) (by decide)
    (by set_option maxRecDepth 8000 in rfl) rfl rfl rfl rfl rfl rfl

/-- C7 (amended): on a successful response whose `jockey_alert` is a
non-empty string other than "null", the banner carrying that text is the
first success output: it immediately precedes the caption, the two cards,
and the logic panel in the event trace. -/
theorem c7_alert_banner_first (inp : FormInput) (text : String)
    (loads : String → Except String JsonValue)
    (fields : List (String × JsonValue)) (a : String) (c s so d dd l : JsonValue)
    (hb : inp.start_btn = true) (hk : inp.api_key ≠ "") (hm : inp.meeting ≠ "")
    (hl0 : loads text = .ok (.obj fields))
    (ha : lookupField fields "jockey_alert" = some (.str a))
    (hne : a ≠ "") (hnn : a ≠ "null")
    (hc : lookupField fields "conditions" = some c)
    (hs : lookupField fields "selection" = some s)
    (hso : lookupField fields "selection_odds" = some so)
    (hd : lookupField fields "danger" = some d)
    (hdd : lookupField fields "danger_odds" = some dd)
    (hlg : lookupField fields "logic" = some l) :
    appRun inp (.ok text) loads =
      preEvents inp ++
      [.generateContent (userPrompt inp), .statusComplete,
       .stError ("🚨 **JOCKEY ALERT:** " ++ a),
       .stCaption ("📍 " ++ inp.meeting ++ " • " ++ pyStr c),
       .stMetric "🏆 THE SELECTION" s so,
       .stMetric "⚠️ THE DANGER" d dd,
       .stDivider, .stSubheader "📝 The Logic",
       .stInfo l] := by
  have hrun : runSteps (displaySteps inp.meeting (.obj fields)) =
      ([.stError ("🚨 **JOCKEY ALERT:** " ++ a),
        .stCaption ("📍 " ++ inp.meeting ++ " • " ++ pyStr c),
        .stMetric "🏆 THE SELECTION" s so,
        .stMetric "⚠️ THE DANGER" d dd,
        .stDivider, .stSubheader "📝 The Logic",
        .stInfo l], none) := by
    simp [displaySteps, runSteps, alertStep_obj, alertEvents_str fields a ha hne hnn,
      captionStep_eq inp.meeting fields _ hc,
      selectionStep_eq fields _ _ hs hso, dangerStep_eq fields _ _ hd hdd,
      logicStep_eq fields _ hlg, logicHeaderStep]
  simp [appRun, tryBlock, hb, hk, hm, hl0, hrun]

/-- C7 counterexample: the claim quantifies over every non-null string
other than "null", but for the empty string no banner is rendered at all
on an otherwise successful response — the trace is banner-free. -/
theorem c7_counterexample :
    Event.stError ("🚨 **JOCKEY ALERT:** " ++ "") ∉
      appRun sample1Input (.ok "resp")
        (fun _ => .ok (.obj [("jockey_alert", .str ""), ("conditions", .str "Good"),
          ("selection", .str "Alpha Run"), ("selection_odds", .str "2/1"),
          ("danger", .str "Beta Star"), ("danger_odds", .str "5/1"),
          ("logic", .str "Class edge.")])) ∧
    Event.stInfo (.str "Class edge.") ∈
      appRun sample1Input (.ok "resp")
        (fun _ => .ok (.obj [("jockey_alert", .str ""), ("conditions", .str "Good"),
          ("selection", .str "Alpha Run"), ("selection_odds", .str "2/1"),
          ("danger", .str "Beta Star"), ("danger_odds", .str "5/1"),
          ("logic", .str "Class edge.")])) := by
  have h : appRun sample1Input (.ok "resp")
      (fun _ => .ok (.obj [("jockey_alert", .str ""), ("conditions", .str "Good"),
        ("selection", .str "Alpha Run"), ("selection_odds", .str "2/1"),
        ("danger", .str "Beta Star"), ("danger_odds", .str "5/1"),
        ("logic", .str "Class edge.")])) =
      [.configure "secret-key",
       .statusWrite "🔍 Finding racecard & checking going...",
       .generateContent (userPrompt sample1Input), .statusComplete,
       .stCaption ("📍 " ++ "Newbury" ++ " • " ++ "Good"),
       .stMetric "🏆 THE SELECTION" (.str "Alpha Run") (.str "2/1"),
       .stMetric "⚠️ THE DANGER" (.str "Beta Star") (.str "5/1"),
       .stDivider, .stSubheader "📝 The Logic",
       .stInfo (.str "Class edge.")] := by
    set_option maxRecDepth 8000 in rfl
  rw [h]
  constructor
  · simp
  · simp

/-- C7 witness: a concrete success whose alert "J. Smith booked" is
rendered ahead of all other success output. -/
theorem c7_witness :
    appRun sample1Input (.ok "resp")
        (fun _ => .ok (.obj [("jockey_alert", .str "J. Smith booked"),
          ("conditions", .str "Good"), ("selection", .str "Alpha Run"),
          ("selection_odds", .str "2/1"), ("danger", .str "Beta Star"),
          ("danger_odds", .str "5/1"), ("logic", .str "Class edge.")])) =
      preEvents sample1Input ++
      [.generateContent (userPrompt sample1Input), .statusComplete,
       .stError ("🚨 **JOCKEY ALERT:** " ++ "J. Smith booked"),
       .stCaption ("📍 " ++ sample1Input.meeting ++ " • " ++
         pyStr (.str "Good")),
       .stMetric "🏆 THE SELECTION" (.str "Alpha Run") (.str "2/1"),
       .stMetric "⚠️ THE DANGER" (.str "Beta Star") (.str "5/1"),
       .stDivider, .stSubheader "📝 The Logic",
       .stInfo (.str "Class edge.")] :=
  c7_alert_banner_first sample1Input "resp" _
    [("jockey_alert", .str "J. Smith booked"), ("conditions", .str "Good"),
     ("selection", .str "Alpha Run"), ("selection_odds", .str "2/1"),
     ("danger", .str "Beta Star"), ("danger_odds", .str "5/1"),
     ("logic", .str "Class edge.")]
    "J. Smith booked" _ _ _ _ _ _
    rfl (by decide) (by decide) rfl rfl (by decide) (by decide)
    rfl rfl rfl rfl rfl rfl

/-- A valid-JSON response missing only the required `logic` key (the C1
probe). -/
def c1MissingLogicData : JsonValue :=
  .obj [("conditions", .str "Good to Firm"), ("selection", .str "Alpha Run"),
        ("selection_odds", .str "2/1"), ("danger", .str "Beta Star"),
        ("danger_odds", .str "5/1"), ("jockey_alert", .str "W. Buick booked")]

/-- C1 counterexample: the claim says a response missing a required key
yields a single error and no success output alongside it; but with only
`logic` missing the banner, the caption and both cards render first —
success output and the `Oops: 'logic'` error appear in the same trace. -/
theorem c1_counterexample :
    Event.stError ("🚨 **JOCKEY ALERT:** " ++ "W. Buick booked") ∈
      appRun sample1Input (.ok "resp") (fun _ => .ok c1MissingLogicData) ∧
    Event.stCaption ("📍 " ++ "Newbury" ++ " • " ++ "Good to Firm") ∈
      appRun sample1Input (.ok "resp") (fun _ => .ok c1MissingLogicData) ∧
    Event.stMetric "🏆 THE SELECTION" (.str "Alpha Run") (.str "2/1") ∈
      appRun sample1Input (.ok "resp") (fun _ => .ok c1MissingLogicData) ∧
    Event.stError ("Oops: " ++ "\x27logic\x27") ∈
      appRun sample1Input (.ok "resp") (fun _ => .ok c1MissingLogicData) := by
  have h : appRun sample1Input (.ok "resp") (fun _ => .ok c1MissingLogicData) =
      [.configure "secret-key",
       .statusWrite "🔍 Finding racecard & checking going...",
       .generateContent (userPrompt sample1Input), .statusComplete,
       .stError ("🚨 **JOCKEY ALERT:** " ++ "W. Buick booked"),
       .stCaption ("📍 " ++ "Newbury" ++ " • " ++ "Good to Firm"),
       .stMetric "🏆 THE SELECTION" (.str "Alpha Run") (.str "2/1"),
       .stMetric "⚠️ THE DANGER" (.str "Beta Star") (.str "5/1"),
       .stDivider, .stSubheader "📝 The Logic",
       .statusError, .stError ("Oops: " ++ "\x27logic\x27")] := by
    set_option maxRecDepth 8000 in rfl
  rw [h]
  refine ⟨by simp, by simp, by simp, by simp⟩

/-- C1 (amended): a response whose text is not valid JSON always yields the
single error banner and no success output; a response that is valid JSON
missing a required key always reaches the error branch and yields the
error banner, though the success output emitted before the failing key
access remains in the trace ahead of it. -/
theorem c1_error_result (inp : FormInput) (loads : String → Except String JsonValue)
    (hb : inp.start_btn = true) (hk : inp.api_key ≠ "") (hm : inp.meeting ≠ "") :
    (∀ text m, loads text = .error m →
      appRun inp (.ok text) loads =
        preEvents inp ++ [.generateContent (userPrompt inp),
          .statusError, .stError ("Oops: " ++ m)]) ∧
    (∀ text fields, loads text = .ok (.obj fields) →
      (lookupField fields "conditions" = none ∨
       lookupField fields "selection" = none ∨
       lookupField fields "selection_odds" = none ∨
       lookupField fields "danger" = none ∨
       lookupField fields "danger_odds" = none ∨
       lookupField fields "logic" = none) →
      ∃ e : PyErr, appRun inp (.ok text) loads =
        preEvents inp ++ [.generateContent (userPrompt inp), .statusComplete] ++
        (runSteps (displaySteps inp.meeting (.obj fields))).1 ++
        [.statusError, .stError ("Oops: " ++ e.message)]) := by
  constructor
  · intro text m hl
    simp [appRun, tryBlock, hb, hk, hm, hl, PyErr.message]
  · intro text fields hl hmiss
    cases hr : (runSteps (displaySteps inp.meeting (.obj fields))).2 with
    | none =>
        exfalso
        have hkeys := displaySteps_keys inp.meeting fields hr
        rcases hmiss with h | h | h | h | h | h <;> rw [h] at hkeys <;> simp at hkeys
    | some e =>
        refine ⟨e, ?_⟩
        have ht : (tryBlock inp (.ok text) loads).2 = some e := by
          simp [tryBlock, hl, hr]
        have h1 : (tryBlock inp (.ok text) loads).1 =
            [.generateContent (userPrompt inp), .statusComplete] ++
              (runSteps (displaySteps inp.meeting (.obj fields))).1 := by
          simp [tryBlock, hl]
        rw [appRun_error_shape inp _ loads e hb hk hm ht, h1]
        simp

/-- C1 witness: a concrete non-JSON response text yields exactly the
single error banner. -/
theorem c1_witness :
    appRun sample1Input (.ok "Sorry, I cannot browse the web.") sample1Loads =
      preEvents sample1Input ++ [.generateContent (userPrompt sample1Input),
        .statusError,
        .stError ("Oops: " ++ "Expecting value: line 1 column 1 (char 0)")] :=
  (c1_error_result sample1Input sample1Loads rfl (by decide) (by decide)).1
    "Sorry, I cannot browse the web." "Expecting value: line 1 column 1 (char 0)"
    (by set_option maxRecDepth 8000 in rfl)

end RacingAgent
